import Mathlib

/-!
Verification of the socket lifecycle and fault-tolerant I/O layer of the
udptun tunnel endpoint (src/src/sock.h).  The repository ships only the
interface header; every operation below is therefore a shallow embedding of
the behaviour the header and the specification document for that operation,
with underlying syscall outcomes supplied as explicit oracle arguments and
process-level effects (descriptor registry, open descriptors, diagnostics,
termination) threaded through an explicit state.
-/

namespace Udptun

/-- Process-level state visible to the socket layer: the DescriptorRegistry
(descriptors registered for garbage collection), the set of descriptors
currently open in the OS, the diagnostics emitted so far, and the exit code
once the process has terminated (none while it is running). -/
structure ProcState where
  registry : List Nat
  openFds : List Nat
  diagnostics : List String
  exitCode : Option Nat
deriving Repr, DecidableEq

/-- Modelled from the spec: DescriptorRegistry.closeAll (sock.c body absent
from src/) — closes every still-registered handle and empties the registry. -/
def closeAll (s : ProcState) : ProcState :=
  { s with
    openFds := s.openFds.filter (fun fd => decide (fd ∉ s.registry)),
    registry := [] }

/-- Modelled from the spec: die (sock.c body absent from src/) — emits the
diagnostic, sweeps the DescriptorRegistry via closeAll, then terminates the
process with a non-zero status. -/
def die (msg : String) (s : ProcState) : ProcState :=
  let s1 := closeAll { s with diagnostics := s.diagnostics ++ [msg] }
  { s1 with exitCode := some 1 }

/-- Outcome of an underlying I/O primitive, supplied as an oracle:
either a byte count on success or an errno on failure. -/
inductive SysOutcome where
  | ok (n : Nat)
  | err (e : Nat)
deriving Repr, DecidableEq

/-- Whether the underlying primitive failed. -/
def SysOutcome.isErr : SysOutcome → Bool
  | .ok _ => false
  | .err _ => true

/-- A socket address: textual host plus port. -/
abbrev SockAddr : Type := String × Nat

/-- Modelled from the spec: xsendto4 (sock.c body absent from src/) —
fatal-on-failure sendto wrapper: dies on underlying failure, otherwise
returns the byte count. -/
def xsendto4 (fd : Nat) (sa : SockAddr) (buf : List Nat)
    (outcome : SysOutcome) (s : ProcState) : Option Nat × ProcState :=
  match outcome with
  | .ok n => (some n, s)
  | .err _ => (none, die "xsendto4" s)

/-- Modelled from the spec: xsendto6 (sock.c body absent from src/) —
fatal-on-failure sendto wrapper, IPv6 variant. -/
def xsendto6 (fd : Nat) (sa : SockAddr) (buf : List Nat)
    (outcome : SysOutcome) (s : ProcState) : Option Nat × ProcState :=
  match outcome with
  | .ok n => (some n, s)
  | .err _ => (none, die "xsendto6" s)

/-- Modelled from the spec: xrecvfrom (sock.c body absent from src/) —
fatal-on-failure recvfrom wrapper: dies on underlying failure, otherwise
returns the byte count together with the source address. -/
def xrecvfrom (fd : Nat) (buflen : Nat) (src : SockAddr)
    (outcome : SysOutcome) (s : ProcState) :
    Option (Nat × SockAddr) × ProcState :=
  match outcome with
  | .ok n => (some (n, src), s)
  | .err _ => (none, die "xrecvfrom" s)

/-- Modelled from the spec: xwrite (sock.c body absent from src/) —
fatal-on-failure byte-buffer write wrapper. -/
def xwrite (fd : Nat) (buf : List Nat)
    (outcome : SysOutcome) (s : ProcState) : Option Nat × ProcState :=
  match outcome with
  | .ok n => (some n, s)
  | .err _ => (none, die "xwrite" s)

/-- Modelled from the spec: xfwrite (sock.c body absent from src/) —
fatal-on-failure line-buffered file write wrapper. -/
def xfwrite (fp : Nat) (buf : List Nat) (size nmemb : Nat)
    (outcome : SysOutcome) (s : ProcState) : Option Nat × ProcState :=
  match outcome with
  | .ok n => (some n, s)
  | .err _ => (none, die "xfwrite" s)

/-- Modelled from the spec: xmalloc (sock.c body absent from src/) —
fatal-on-failure allocation wrapper: dies if allocation fails, otherwise
returns the allocated address. -/
def xmalloc (size : Nat) (outcome : SysOutcome) (s : ProcState) :
    Option Nat × ProcState :=
  match outcome with
  | .ok p => (some p, s)
  | .err _ => (none, die "xmalloc" s)

/-- Modelled from the spec: xread (sock.c body absent from src/) — per the
header, a read wrapper that dies with failure; on success returns the byte
count. -/
def xread (fd : Nat) (buflen : Nat)
    (outcome : SysOutcome) (s : ProcState) : Option Nat × ProcState :=
  match outcome with
  | .ok n => (some n, s)
  | .err _ => (none, die "xread" s)

/-- Modelled from the spec: xrecv (sock.c body absent from src/) —
recoverable-group receive: underlying failure yields the negative sentinel
-1 to the caller instead of terminating; success returns the byte count. -/
def xrecv (fd : Nat) (buflen : Nat)
    (outcome : SysOutcome) (s : ProcState) : Int × ProcState :=
  match outcome with
  | .ok n => ((n : Int), s)
  | .err _ => (-1, s)

/-- Result of a raw-socket creation attempt. -/
inductive RawSockResult where
  | handle (fd : Nat)
  | protocolUnsupported
  | fatal
deriving Repr, DecidableEq

/-- Outcome of the underlying socket/bind/attach setup sequence, supplied
as an oracle: either a fresh descriptor or the failing stage. -/
inductive SetupOutcome where
  | ok (fd : Nat)
  | fail (stage : String)
deriving Repr, DecidableEq

/-- The numeric transport-layer identifier for TCP. -/
def IPPROTO_TCP : Nat := 6

/-- Modelled from the spec: raw_sock4 (sock.c body absent from src/) —
creates and binds a raw IPv4 socket for the given protocol, attaching the
filter program and binding the device when provided.  `rawSupport` is the
platform capability: when absent the call fails immediately with
ProtocolUnsupported and no partial resource is created; when present, any
setup failure is fatal, and on success the descriptor is opened and is
registered with the DescriptorRegistry iff `register_gc` is set. -/
def raw_sock4 (port : Nat) (addr : String) (bpf : Option (List Nat))
    (dev : Option String) (proto : Nat) (register_gc : Bool)
    (planetlab : Bool) (rawSupport : Bool) (outcome : SetupOutcome)
    (s : ProcState) : RawSockResult × ProcState :=
  if rawSupport then
    match outcome with
    | .ok fd =>
        (RawSockResult.handle fd,
         { s with
           openFds := s.openFds ++ [fd],
           registry := if register_gc then s.registry ++ [fd] else s.registry })
    | .fail stage => (RawSockResult.fatal, die ("raw_sock4: " ++ stage) s)
  else
    (RawSockResult.protocolUnsupported, s)

/-- Modelled from the spec: raw_sock6 (sock.c body absent from src/) —
IPv6 variant of raw_sock4 with the same capability, registration and
failure behaviour. -/
def raw_sock6 (port : Nat) (addr : String) (bpf : Option (List Nat))
    (dev : Option String) (proto : Nat) (register_gc : Bool)
    (planetlab : Bool) (rawSupport : Bool) (outcome : SetupOutcome)
    (s : ProcState) : RawSockResult × ProcState :=
  if rawSupport then
    match outcome with
    | .ok fd =>
        (RawSockResult.handle fd,
         { s with
           openFds := s.openFds ++ [fd],
           registry := if register_gc then s.registry ++ [fd] else s.registry })
    | .fail stage => (RawSockResult.fatal, die ("raw_sock6: " ++ stage) s)
  else
    (RawSockResult.protocolUnsupported, s)

/-- Modelled from the spec: raw_tcp_sock4 (sock.c body absent from src/) —
per the header, equivalent to raw_sock4 with protocol IPPROTO_TCP; the
register_gc flag, which its signature does not expose, is fixed internally
(the created descriptor is registered for garbage collection). -/
def raw_tcp_sock4 (port : Nat) (addr : String) (bpf : Option (List Nat))
    (dev : Option String) (planetlab : Bool) (rawSupport : Bool)
    (outcome : SetupOutcome) (s : ProcState) : RawSockResult × ProcState :=
  raw_sock4 port addr bpf dev IPPROTO_TCP true planetlab rawSupport outcome s

/-- The descriptors of `fds` that belong to the waited-on set. -/
def readyFilter (input_set : List Nat) (fds : List Nat) : List Nat :=
  fds.filter (fun fd => decide (fd ∈ input_set))

/-- Modelled from the spec: xselect (sock.c body absent from src/) —
readiness wait.  `readyAt t` is the oracle giving the descriptors ready at
instant `t`; `failed` models an unexpected wait-primitive failure, which is
fatal.  A non-negative timeout blocks until the first instant `t ≤ timeout`
at which a waited-on descriptor is ready, returning the ready subset, and
returns the empty set once the timeout elapses (a normal outcome); timeout
-1 waits indefinitely and returns at `wake`, the instant the OS wakes the
blocked call (which the OS guarantees is a ready instant). -/
def xselect (input_set : List Nat) (fd_max : Nat) (readyAt : Nat → List Nat)
    (timeout : Int) (failed : Bool) (wake : Nat) (s : ProcState) :
    Option (List Nat) × ProcState :=
  match failed with
  | true => (none, die "xselect" s)
  | false =>
      if timeout < 0 then
        (some (readyFilter input_set (readyAt wake)), s)
      else
        match (List.range (timeout.toNat + 1)).find?
            (fun t => !(readyFilter input_set (readyAt t)).isEmpty) with
        | some t => (some (readyFilter input_set (readyAt t)), s)
        | none => (some [], s)

/-- Modelled from the spec: addr_to_itf4 (sock.c body absent from src/) —
looks the interface owning the given IPv4 address up in the local interface
table `itfs` (name, bound address pairs); returns the name, or none
(NotFound, a normal outcome) when no interface owns the address. -/
def addr_to_itf4 (itfs : List (String × String)) (addr : String)
    (s : ProcState) : Option String × ProcState :=
  ((itfs.find? (fun p => p.2 == addr)).map (fun p => p.1), s)

/-- Modelled from the spec: addr_to_itf6 (sock.c body absent from src/) —
IPv6 variant of addr_to_itf4. -/
def addr_to_itf6 (itfs : List (String × String)) (addr : String)
    (s : ProcState) : Option String × ProcState :=
  ((itfs.find? (fun p => p.2 == addr)).map (fun p => p.1), s)

/-- A structured error report decoded from one error-channel entry. -/
structure ErrorReport where
  peer : SockAddr
  category : Nat
  subCode : Nat
  payload : List Nat
deriving Repr, DecidableEq

/-- One entry of a socket's asynchronous error channel: either well formed,
carrying its decoded report and its raw notification bytes, or malformed. -/
inductive ErrEntry where
  | good (r : ErrorReport) (raw : List Nat)
  | bad (raw : List Nat)
deriving Repr, DecidableEq

/-- Decodes an error-channel entry, failing on malformed entries. -/
def decodeEntry : ErrEntry → Option ErrorReport
  | .good r _ => some r
  | .bad _ => none

/-- The raw notification bytes of a well-formed entry. -/
def rawOfGood : ErrEntry → Option (List Nat)
  | .good _ raw => some raw
  | .bad _ => none

/-- Observable outcome of one drain of a socket's error channel: the decoded
reports, the peer addresses passed to the Tunnel State callback, the raw
notifications re-emitted on the forward descriptor, and the diagnostics for
skipped malformed entries. -/
structure DrainResult where
  reports : List ErrorReport
  callbacks : List SockAddr
  emissions : List (List Nat)
  diagnostics : List String
deriving Repr, DecidableEq

/-- Modelled from the spec: xrecverr (sock.c body absent from src/) —
drains the error channel without blocking, pulling entries until it is
empty.  Each well-formed entry is decoded into a report; if `state` is
provided the report is forwarded to the Tunnel State callback exactly once
with its peer address, and the raw notification is re-emitted on `fd_out`;
per the header contract, `fd_out` is ignored when `state` is absent
(NULL).  Malformed entries are skipped with a diagnostic. -/
def xrecverr (channel : List ErrEntry) (fd_out : Option Nat)
    (state : Option Nat) : DrainResult :=
  match channel with
  | [] => ⟨[], [], [], []⟩
  | e :: rest =>
      let r := xrecverr rest fd_out state
      match e with
      | .good rep raw =>
          { r with
            reports := rep :: r.reports,
            callbacks := (if state.isSome then [rep.peer] else []) ++ r.callbacks,
            emissions :=
              (if state.isSome && fd_out.isSome then [raw] else []) ++ r.emissions }
      | .bad _ =>
          { r with
            diagnostics := "malformed error-queue entry skipped" :: r.diagnostics }

/-- A fatal-failure transition: the process terminated with a non-zero
status and at least one new diagnostic was emitted. -/
def FatalOutcome (s s2 : ProcState) : Prop :=
  s2.exitCode = some 1 ∧ s.diagnostics.length < s2.diagnostics.length

/-- A running process state with no registered or open descriptors,
used to instantiate witnesses. -/
def procState0 : ProcState := ⟨[], [], [], none⟩

/-- C1: for every operation in the fatal-on-failure group (xsendto4,
xsendto6, xrecvfrom, xwrite, xfwrite, xmalloc) and every input, if the
underlying primitive fails then the operation terminates the process with a
non-zero status after emitting a diagnostic, and never returns a failure
value to the caller. -/
theorem fatal_group_dies_on_failure (fd fp size nmemb buflen : Nat)
    (sa src : SockAddr) (buf : List Nat) (outcome : SysOutcome)
    (s : ProcState) (h : outcome.isErr = true) :
    ((xsendto4 fd sa buf outcome s).1 = none ∧
      FatalOutcome s (xsendto4 fd sa buf outcome s).2) ∧
    ((xsendto6 fd sa buf outcome s).1 = none ∧
      FatalOutcome s (xsendto6 fd sa buf outcome s).2) ∧
    ((xrecvfrom fd buflen src outcome s).1 = none ∧
      FatalOutcome s (xrecvfrom fd buflen src outcome s).2) ∧
    ((xwrite fd buf outcome s).1 = none ∧
      FatalOutcome s (xwrite fd buf outcome s).2) ∧
    ((xfwrite fp buf size nmemb outcome s).1 = none ∧
      FatalOutcome s (xfwrite fp buf size nmemb outcome s).2) ∧
    ((xmalloc size outcome s).1 = none ∧
      FatalOutcome s (xmalloc size outcome s).2) := by
  cases outcome with
  | ok n => simp [SysOutcome.isErr] at h
  | err e =>
      refine ⟨?_, ?_, ?_, ?_, ?_, ?_⟩ <;>
        simp [xsendto4, xsendto6, xrecvfrom, xwrite, xfwrite, xmalloc,
          FatalOutcome, die, closeAll]

/-- Witness for C1: a failing sendto at a concrete input returns no value
to the caller. -/
theorem fatal_group_dies_on_failure_witness :
    (xsendto4 3 ("10.0.0.1", 80) [1] (SysOutcome.err 5) procState0).1 = none :=
  (fatal_group_dies_on_failure 3 0 0 0 0 ("10.0.0.1", 80) ("192.0.2.7", 9) [1]
    (SysOutcome.err 5) procState0 rfl).1.1

/-- C2: the recoverable-group receive xrecv never terminates the process:
on underlying failure it returns a negative sentinel to the caller, and
otherwise the number of bytes received. -/
theorem xrecv_recoverable (fd buflen : Nat) (outcome : SysOutcome)
    (s : ProcState) :
    (xrecv fd buflen outcome s).2 = s ∧
    (outcome.isErr = true → (xrecv fd buflen outcome s).1 < 0) ∧
    (∀ n, outcome = SysOutcome.ok n →
      (xrecv fd buflen outcome s).1 = (n : Int)) := by
  cases outcome <;> simp [xrecv, SysOutcome.isErr]

/-- Witness for C2: a failing receive at a concrete input returns the
negative sentinel. -/
theorem xrecv_recoverable_witness :
    (xrecv 3 10 (SysOutcome.err 4) procState0).1 < 0 :=
  (xrecv_recoverable 3 10 (SysOutcome.err 4) procState0).2.1 rfl

/-- C10: the buffered read wrapper xread terminates the process on any
underlying read failure, and on success returns the number of bytes read. -/
theorem xread_dies_on_failure (fd buflen : Nat) (outcome : SysOutcome)
    (s : ProcState) :
    (outcome.isErr = true →
      (xread fd buflen outcome s).1 = none ∧
        FatalOutcome s (xread fd buflen outcome s).2) ∧
    (∀ n, outcome = SysOutcome.ok n →
      xread fd buflen outcome s = (some n, s)) := by
  cases outcome <;>
    simp [xread, SysOutcome.isErr, FatalOutcome, die, closeAll]

/-- Witness for C10: a failing read at a concrete input terminates the
process. -/
theorem xread_dies_on_failure_witness :
    (xread 2 16 (SysOutcome.err 9) procState0).1 = none ∧
      FatalOutcome procState0 (xread 2 16 (SysOutcome.err 9) procState0).2 :=
  (xread_dies_on_failure 2 16 (SysOutcome.err 9) procState0).1 rfl

/-- C3: on a platform/build without raw-socket support, every raw-socket
creation (raw_sock4, raw_sock6, raw_tcp_sock4) fails immediately with
ProtocolUnsupported, creates no partial resource (the whole process state,
open descriptors included, is unchanged), and leaves the DescriptorRegistry
size unchanged. -/
theorem raw_sock_unsupported (port : Nat) (addr : String)
    (bpf : Option (List Nat)) (dev : Option String) (proto : Nat)
    (register_gc planetlab : Bool) (outcome : SetupOutcome) (s : ProcState) :
    raw_sock4 port addr bpf dev proto register_gc planetlab false outcome s
      = (RawSockResult.protocolUnsupported, s) ∧
    raw_sock6 port addr bpf dev proto register_gc planetlab false outcome s
      = (RawSockResult.protocolUnsupported, s) ∧
    raw_tcp_sock4 port addr bpf dev planetlab false outcome s
      = (RawSockResult.protocolUnsupported, s) ∧
    (raw_sock4 port addr bpf dev proto register_gc planetlab false outcome
        s).2.registry.length = s.registry.length := by
  refine ⟨?_, ?_, ?_, ?_⟩ <;> simp [raw_sock4, raw_sock6, raw_tcp_sock4]

/-- C4: die terminates the process only after the DescriptorRegistry has
been fully swept: in the exit state the registry is empty, no previously
registered descriptor remains open, and the diagnostic has been emitted;
moreover a fatal-failure path (a failing xwrite) exits with the registry
already swept. -/
theorem die_after_closeAll (msg : String) (s : ProcState) :
    (die msg s).exitCode = some 1 ∧
    (die msg s).registry = [] ∧
    (∀ fd, fd ∈ s.registry → fd ∉ (die msg s).openFds) ∧
    s.diagnostics.length < (die msg s).diagnostics.length ∧
    (∀ (fd2 : Nat) (buf : List Nat) (outcome : SysOutcome),
      outcome.isErr = true → (xwrite fd2 buf outcome s).2.registry = []) := by
  refine ⟨rfl, rfl, ?_, by simp [die, closeAll], ?_⟩
  · intro fd hfd
    simp [die, closeAll, List.mem_filter]
    intro _
    exact hfd
  · intro fd2 buf outcome houtcome
    cases outcome with
    | ok n => simp [SysOutcome.isErr] at houtcome
    | err e => simp [xwrite, die, closeAll]

/-- Witness for C4: after die on a state with registered descriptor 7,
descriptor 7 is no longer open. -/
theorem die_after_closeAll_witness :
    7 ∉ (die "boom" ⟨[7], [7, 8], [], none⟩).openFds :=
  (die_after_closeAll "boom" ⟨[7], [7, 8], [], none⟩).2.2.1 7 (by simp)

/-- C9: raw_tcp_sock4 returns the same result as raw_sock4 applied to the
same arguments with protocol IPPROTO_TCP, with the register_gc flag its
signature does not expose fixed to one internal value. -/
theorem raw_tcp_sock4_refines_raw_sock4 :
    ∃ register_gc : Bool, ∀ (port : Nat) (addr : String)
      (bpf : Option (List Nat)) (dev : Option String)
      (planetlab rawSupport : Bool) (outcome : SetupOutcome) (s : ProcState),
      raw_tcp_sock4 port addr bpf dev planetlab rawSupport outcome s =
        raw_sock4 port addr bpf dev IPPROTO_TCP register_gc planetlab
          rawSupport outcome s :=
  ⟨true, fun _ _ _ _ _ _ _ _ => rfl⟩

/-- A drain yields exactly the decoded reports of the channel, in channel
order. -/
lemma drain_reports (channel : List ErrEntry) (fd_out state : Option Nat) :
    (xrecverr channel fd_out state).reports = channel.filterMap decodeEntry := by
  induction channel with
  | nil => rfl
  | cons e rest ih => cases e <;> simp [xrecverr, decodeEntry, ih]

/-- With a tunnel state provided, a drain invokes the callback once per
decoded report, with its peer address, in channel order. -/
lemma drain_callbacks_some (channel : List ErrEntry) (fd_out : Option Nat)
    (ts : Nat) :
    (xrecverr channel fd_out (some ts)).callbacks
      = (channel.filterMap decodeEntry).map (fun r => r.peer) := by
  induction channel with
  | nil => rfl
  | cons e rest ih => cases e <;> simp [xrecverr, decodeEntry, ih]

/-- Without a tunnel state, a drain invokes no callback. -/
lemma drain_callbacks_none (channel : List ErrEntry) (fd_out : Option Nat) :
    (xrecverr channel fd_out none).callbacks = [] := by
  induction channel with
  | nil => rfl
  | cons e rest ih => cases e <;> simp [xrecverr, ih]

/-- With both a tunnel state and a forward descriptor, a drain re-emits the
raw notification of every well-formed entry, in channel order. -/
lemma drain_emissions_some (channel : List ErrEntry) (f ts : Nat) :
    (xrecverr channel (some f) (some ts)).emissions
      = channel.filterMap rawOfGood := by
  induction channel with
  | nil => rfl
  | cons e rest ih => cases e <;> simp [xrecverr, rawOfGood, ih]

/-- Without a tunnel state, a drain re-emits nothing, whatever the forward
descriptor. -/
lemma drain_emissions_no_state (channel : List ErrEntry)
    (fd_out : Option Nat) :
    (xrecverr channel fd_out none).emissions = [] := by
  induction channel with
  | nil => rfl
  | cons e rest ih => cases e <;> simp [xrecverr, ih]

/-- Without a forward descriptor, a drain re-emits nothing. -/
lemma drain_emissions_no_fd (channel : List ErrEntry) (state : Option Nat) :
    (xrecverr channel none state).emissions = [] := by
  induction channel with
  | nil => rfl
  | cons e rest ih => cases e <;> simp [xrecverr, ih]

/-- C5: a drain (xrecverr) pulls entries until the channel is empty and
returns the decoded reports in exactly the order the channel yielded them
(no reordering, no deduplication); on an empty channel it returns an empty
list and performs no callbacks, emissions or diagnostics. -/
theorem xrecverr_drains_in_order (channel : List ErrEntry)
    (fd_out state : Option Nat) :
    (xrecverr channel fd_out state).reports = channel.filterMap decodeEntry ∧
    xrecverr [] fd_out state = ⟨[], [], [], []⟩ :=
  ⟨drain_reports channel fd_out state, rfl⟩

/-- A concrete well-formed error report used in counterexamples. -/
def report0 : ErrorReport := ⟨("192.0.2.1", 443), 3, 4, [9]⟩

/-- Counterexample to C6 as stated: re-emission on the forward descriptor
is NOT conditioned only on fd_out being provided — with fd_out provided but
no tunnel state, the raw notification of a well-formed entry is not
re-emitted (per the header, fd_out is ignored when state is NULL). -/
theorem xrecverr_fd_only_counterexample :
    ¬ (∀ (channel : List ErrEntry) (f : Nat) (state : Option Nat),
        (xrecverr channel (some f) state).emissions
          = channel.filterMap rawOfGood) := by
  intro h
  have hc := h [ErrEntry.good report0 [1, 2]] 5 none
  simp [xrecverr, rawOfGood] at hc

/-- C6 (amended): during a drain, if a tunnel state is provided the Tunnel
State callback is invoked exactly once per decoded entry with the report
peer address, whatever the forward descriptor (provided or not — the
callback is conditioned only on the tunnel state); the raw notification is
re-emitted on fd_out only when BOTH fd_out and the tunnel state are
provided — with no tunnel state, fd_out is ignored and nothing is
forwarded at all. -/
theorem xrecverr_forwarding (channel : List ErrEntry) (f ts : Nat) :
    (∀ fd_out, (xrecverr channel fd_out (some ts)).callbacks
      = (channel.filterMap decodeEntry).map (fun r => r.peer)) ∧
    (xrecverr channel (some f) (some ts)).emissions
      = channel.filterMap rawOfGood ∧
    (∀ fd_out, (xrecverr channel fd_out none).callbacks = [] ∧
      (xrecverr channel fd_out none).emissions = []) ∧
    (∀ state, (xrecverr channel none state).emissions = []) :=
  ⟨fun fd_out => drain_callbacks_some channel fd_out ts,
   drain_emissions_some channel f ts,
   fun fd_out =>
     ⟨drain_callbacks_none channel fd_out,
      drain_emissions_no_state channel fd_out⟩,
   fun state => drain_emissions_no_fd channel state⟩

/-- C8: for every address owned by no local interface, the interface
lookups addr_to_itf4 and addr_to_itf6 return NotFound (none) as a normal
outcome, leaving the process state untouched (no fatal error, no
termination). -/
theorem addr_to_itf_not_found (itfs : List (String × String))
    (addr : String) (s : ProcState) (h : ∀ p ∈ itfs, p.2 ≠ addr) :
    addr_to_itf4 itfs addr s = (none, s) ∧
    addr_to_itf6 itfs addr s = (none, s) := by
  have hfind : itfs.find? (fun p => p.2 == addr) = none := by
    rw [List.find?_eq_none]
    intro p hp
    simp only [beq_iff_eq]
    exact h p hp
  constructor <;> simp [addr_to_itf4, addr_to_itf6, hfind]

/-- Witness for C8: a lookup of an address bound to no interface in a
concrete one-interface table returns none and the unchanged state. -/
theorem addr_to_itf_not_found_witness :
    addr_to_itf4 [("eth0", "10.0.0.1")] "10.0.0.2" procState0
      = (none, procState0) :=
  (addr_to_itf_not_found [("eth0", "10.0.0.1")] "10.0.0.2" procState0
    (by decide)).1

/-- Every descriptor a readiness filter returns belongs to the waited-on
set. -/
lemma readyFilter_subset (input_set fds : List Nat) :
    ∀ fd ∈ readyFilter input_set fds, fd ∈ input_set := by
  intro fd hfd
  simp [readyFilter, List.mem_filter] at hfd
  exact hfd.2

/-- C7: the readiness wait xselect returns the ready subset of the waited-on
descriptors; with a zero timeout and nothing ready it returns the empty set
(a non-blocking poll); it never terminates the process except on an
unexpected wait-primitive failure, on which it dies; timeout -1 waits
indefinitely, returning the (nonempty) ready set at the instant the OS
wakes it; and whenever some waited-on descriptor is ready within a
non-negative timeout, a nonempty ready set is returned rather than a
timeout. -/
theorem xselect_readiness (input_set : List Nat) (fd_max : Nat)
    (readyAt : Nat → List Nat) (timeout : Int) (failed : Bool) (wake : Nat)
    (s : ProcState) :
    (failed = true →
      (xselect input_set fd_max readyAt timeout failed wake s).1 = none ∧
      FatalOutcome s
        (xselect input_set fd_max readyAt timeout failed wake s).2) ∧
    (failed = false →
      (xselect input_set fd_max readyAt timeout failed wake s).2 = s) ∧
    (failed = false → ∀ rs,
      (xselect input_set fd_max readyAt timeout failed wake s).1 = some rs →
      ∀ fd ∈ rs, fd ∈ input_set) ∧
    (failed = false → timeout = 0 →
      readyFilter input_set (readyAt 0) = [] →
      (xselect input_set fd_max readyAt timeout failed wake s).1 = some []) ∧
    (failed = false → timeout = -1 →
      readyFilter input_set (readyAt wake) ≠ [] →
      (xselect input_set fd_max readyAt timeout failed wake s).1
        = some (readyFilter input_set (readyAt wake))) ∧
    (failed = false → 0 ≤ timeout →
      (∃ t, t ≤ timeout.toNat ∧ readyFilter input_set (readyAt t) ≠ []) →
      ∃ rs,
        (xselect input_set fd_max readyAt timeout failed wake s).1 = some rs
          ∧ rs ≠ []) := by
  refine ⟨?_, ?_, ?_, ?_, ?_, ?_⟩
  · intro hf
    subst hf
    simp [xselect, FatalOutcome, die, closeAll]
  · intro hf
    subst hf
    simp only [xselect]
    split
    · rfl
    · split <;> rfl
  · intro hf rs hrs
    subst hf
    simp only [xselect] at hrs
    split at hrs
    · cases hrs
      exact readyFilter_subset input_set (readyAt wake)
    · split at hrs
      · cases hrs
        exact readyFilter_subset input_set _
      · cases hrs
        intro fd hfd
        simp at hfd
  · intro hf ht hempty
    subst hf
    subst ht
    simp [xselect, List.range_succ, List.find?, hempty]
  · intro hf ht hne
    subst hf
    subst ht
    simp [xselect]
  · intro hf hpos hready
    subst hf
    obtain ⟨t, hle, hne⟩ := hready
    simp only [xselect]
    rw [if_neg (by omega)]
    rcases hfind : (List.range (timeout.toNat + 1)).find?
        (fun u => !(readyFilter input_set (readyAt u)).isEmpty) with _ | u
    · exfalso
      have hall := List.find?_eq_none.mp hfind t (by simp [List.mem_range]; omega)
      simp at hall
      exact hne hall
    · have hu := List.find?_some hfind
      simp at hu
      exact ⟨readyFilter input_set (readyAt u), rfl, hu⟩

/-- Witness for C7: a zero-timeout poll over one descriptor with nothing
ready returns the empty ready set without failing. -/
theorem xselect_readiness_witness :
    (xselect [3] 10 (fun _ => []) 0 false 0 procState0).1 = some [] :=
  (xselect_readiness [3] 10 (fun _ => []) 0 false 0
    procState0).2.2.2.1 rfl rfl rfl

end Udptun
